import Mathlib

/-!
Verification of the instance state model, snapshot retention and
operation-polling logic of `common/compute.py` (yandex-cloud-tools).

The Python class `Instance` is embedded shallowly: each method becomes a
pure Lean function over the data the method actually consumes.  Provider
responses (HTTP status codes, JSON bodies) are passed in explicitly, and
log statements become an explicit list of `LogEvent`s in the result so
that "no request sent / warning logged" properties are statable.
-/

namespace YandexCloudTools

/-- `NEGATIVE_STATES` from `compute.py` line 15. -/
def NEGATIVE_STATES : List String := ["STOPPED", "STOPPING", "ERROR", "CRASHED"]

/-- `POSITIVE_STATES` from `compute.py` line 16. -/
def POSITIVE_STATES : List String := ["RUNNING", "PROVISIONING", "CREATING"]

/-- Severity of a `logger.*` call. -/
inductive LogLevel where
  | info
  | warning
  | error
deriving DecidableEq

/-- One emitted log line: severity plus the formatted message. -/
structure LogEvent where
  level : LogLevel
  msg : String
deriving DecidableEq

/-- Python f-string rendering of a possibly-`None` value: `None` prints as
the string "None". -/
def pyStr : Option String → String
  | Option.none => "None"
  | Option.some s => s

/-- The `bootDisk` sub-object of the instance JSON body. -/
structure BootDisk where
  diskId : String
deriving DecidableEq

/-- The JSON body returned by a successful instance fetch (`get_data`),
restricted to the fields the embedded methods read. -/
structure InstanceData where
  folderId : String
  name : String
  bootDisk : BootDisk
  status : String
deriving DecidableEq

/-- Python runtime errors that the embedded code can raise. -/
inductive PyError where
  | attributeError
deriving DecidableEq

/-- Property `Instance.folder_id` (lines 86-92): `None` when
`instance_data` is `None`, otherwise the cached `folderId`. -/
def folder_id (instance_data : Option InstanceData) : Option String :=
  match instance_data with
  | Option.none => Option.none
  | Option.some d => Option.some d.folderId

/-- Property `Instance.name` (lines 94-100). -/
def name (instance_data : Option InstanceData) : Option String :=
  match instance_data with
  | Option.none => Option.none
  | Option.some d => Option.some d.name

/-- Property `Instance.boot_disk` (lines 102-108): the cached
`bootDisk.diskId`. -/
def boot_disk (instance_data : Option InstanceData) : Option String :=
  match instance_data with
  | Option.none => Option.none
  | Option.some d => Option.some d.bootDisk.diskId

/-- Property `Instance.status` (lines 119-125).  When the cached
`instance_data` is `None` it returns the sentinel.  Otherwise it performs a
FRESH `get_data()` call (modelled by the `fresh` argument) and reads
`.get('status')` off the result; when that fresh fetch returned `None`
(404 / error), `None.get('status')` raises `AttributeError`. -/
def status (instance_data : Option InstanceData) (fresh : Option InstanceData) :
    Except PyError String :=
  match instance_data with
  | Option.none => Except.ok "NON-EXISTENT"
  | Option.some _ =>
    match fresh with
    | Option.none => Except.error PyError.attributeError
    | Option.some d => Except.ok d.status

/-- `Instance.__repr__` (lines 127-136): the ordered key/value dict, with
`None` attribute values rendered the way the f-string in `__str__` renders
them.  The read of `self.status` may raise, which propagates. -/
def instance_repr (instance_id : String) (instance_data fresh : Option InstanceData) :
    Except PyError (List (String × String)) :=
  match status instance_data fresh with
  | Except.error e => Except.error e
  | Except.ok st =>
    Except.ok [("InstanceID", instance_id),
               ("FolderID", pyStr (folder_id instance_data)),
               ("Name", pyStr (name instance_data)),
               ("BootDisk", pyStr (boot_disk instance_data)),
               ("Status", st)]

/-- Python `sep.join(items)`: empty for no items, otherwise the items
with `sep` between consecutive ones. -/
def pyJoin (sep : String) : List String → String
  | [] => ""
  | [x] => x
  | x :: y :: xs => x ++ sep ++ pyJoin sep (y :: xs)

/-- `Instance.__str__` (lines 138-145): joins the `__repr__` dict with
", "; on `TypeError`/`AttributeError` it logs an info-level "not found"
line and returns `None`.  Result: the returned value plus the emitted
logs. -/
def instance_str (instance_id : String) (instance_data fresh : Option InstanceData) :
    Option String × List LogEvent :=
  match instance_repr instance_id instance_data fresh with
  | Except.ok data =>
    (Option.some (pyJoin ", " (data.map (fun kv => kv.1 ++ ": " ++ kv.2))), [])
  | Except.error _ =>
    (Option.none,
     [⟨LogLevel.info, "Instance with ID " ++ instance_id ++ " not found."⟩])

/-- One snapshot object from the provider's snapshot list, restricted to
the fields read by the code.  `createdAt` is the UTC creation time in
epoch seconds (the code parses `%Y-%m-%dT%H:%M:%Sz`, second
granularity). -/
structure Snapshot where
  id : String
  name : String
  sourceDiskId : String
  createdAt : Int
deriving DecidableEq

/-- Python `x == y` where `y` may be `None`: comparing a string against
`None` is `False`. -/
def pyEqOpt (a : String) (b : Option String) : Bool :=
  match b with
  | Option.none => false
  | Option.some s => a == s

/-- `Instance.get_all_snapshots` (lines 147-169).  Arguments: the
instance's `boot_disk` property value, the HTTP status code of the list
request, and `res.get('snapshots')` (`None` when the field is absent,
which makes the `for` loop raise `TypeError`, caught and turned into
`None`).  A non-200 response logs and returns `None`; otherwise the list
is filtered to snapshots whose `sourceDiskId` equals the boot disk id. -/
def get_all_snapshots (boot_disk_id : Option String) (status_code : Nat)
    (snapshots : Option (List Snapshot)) : Option (List Snapshot) :=
  if status_code ≠ 200 then Option.none
  else
    match snapshots with
    | Option.none => Option.none
    | Option.some snaps =>
      Option.some (snaps.filter (fun s => pyEqOpt s.sourceDiskId boot_disk_id))

/-- Snapshot age in days (lines 177-179):
`int((today - created_at).total_seconds()) // 86400`, Python `//` is floor
division. -/
def snapshot_age (now : Int) (s : Snapshot) : Int :=
  Int.fdiv (now - s.createdAt) 86400

/-- The retention test on line 181: `age >= self.lifetime`. -/
def is_old (lifetime now : Int) (s : Snapshot) : Bool :=
  decide (lifetime ≤ snapshot_age now s)

/-- `Instance.get_old_snapshots` (lines 171-184).  `if all_snapshots:` is
Python truthiness: both `None` and the empty list fall through and the
method returns `None`; a non-empty list is filtered by the age test and
the (possibly empty) result list is returned. -/
def get_old_snapshots (lifetime now : Int)
    (all_snapshots : Option (List Snapshot)) : Option (List Snapshot) :=
  match all_snapshots with
  | Option.none => Option.none
  | Option.some l =>
    if l = [] then Option.none
    else Option.some (l.filter (is_old lifetime now))

/-- One operation body as fetched by `operation_status`: the fields the
pollers read. -/
structure Operation where
  done : Bool
  description : String
deriving DecidableEq

/-- Terminal outcome of a poller, carrying the returned message. -/
inductive PollResult where
  | DONE : String → PollResult
  | TIMED_OUT : String → PollResult
deriving DecidableEq

/-- The completion message of lines 212/230. -/
def doneMsg (description operation_id : String) : String :=
  "Operation " ++ description ++ " with ID " ++ operation_id ++ " completed"

/-- The timeout message of lines 217/235 (note: no "ID"). -/
def timeoutMsg (description operation_id : String) : String :=
  "Operation " ++ description ++ " with " ++ operation_id ++ " running too long."

/-- The `while True` loop of `Instance.operation_complete` (lines
224-237).  `fetch k` is the result of the `(k+1)`-th `operation_status`
call; `timeout` is the elapsed counter.  Each iteration fetches, adds 2 to
the counter, returns `DONE` if the fetched operation is done, else
`TIMED_OUT` if the counter is exactly 600, else loops.  Starting from
`timeout = 0` the counter reaches 600 after exactly 300 iterations, so
`fuel = 300` is enough for the loop to be total (proved below). -/
def poll_loop (fetch : Nat → Operation) (operation_id : String) :
    Nat → Nat → Nat → Option (PollResult × Nat)
  | 0, _, _ => Option.none
  | fuel + 1, k, timeout =>
    let operation := fetch k
    let timeout2 := timeout + 2
    if operation.done then
      Option.some (PollResult.DONE (doneMsg operation.description operation_id), timeout2)
    else if timeout2 = 600 then
      Option.some (PollResult.TIMED_OUT (timeoutMsg operation.description operation_id), timeout2)
    else
      poll_loop fetch operation_id fuel (k + 1) timeout2

/-- `Instance.operation_complete` (lines 221-237): `if operation_id:` —
the empty identifier is falsy and the method returns `None` without
polling; otherwise run the loop with the elapsed counter at 0.  The
result pairs the terminal outcome with the final elapsed counter. -/
def operation_complete (fetch : Nat → Operation) (operation_id : String) :
    Option (PollResult × Nat) :=
  if operation_id ≠ "" then poll_loop fetch operation_id 300 0 0
  else Option.none

/-- The `while True` loop of `Instance.async_operation_complete` (lines
206-219), translated separately: the body is textually identical to the
blocking loop except that the wait is `await asyncio.sleep(2)` instead of
`time.sleep(2)`, which a pure embedding does not observe. -/
def async_poll_loop (fetch : Nat → Operation) (operation_id : String) :
    Nat → Nat → Nat → Option (PollResult × Nat)
  | 0, _, _ => Option.none
  | fuel + 1, k, timeout =>
    let operation := fetch k
    let timeout2 := timeout + 2
    if operation.done then
      Option.some (PollResult.DONE (doneMsg operation.description operation_id), timeout2)
    else if timeout2 = 600 then
      Option.some (PollResult.TIMED_OUT (timeoutMsg operation.description operation_id), timeout2)
    else
      async_poll_loop fetch operation_id fuel (k + 1) timeout2

/-- `Instance.async_operation_complete` (lines 203-219). -/
def async_operation_complete (fetch : Nat → Operation) (operation_id : String) :
    Option (PollResult × Nat) :=
  if operation_id ≠ "" then async_poll_loop fetch operation_id 300 0 0
  else Option.none

/-- A provider response to a lifecycle POST: HTTP status code,
`res.get('id')` and `res["message"]`. -/
structure Response where
  status_code : Nat
  id : Option String
  message : String
deriving DecidableEq

/-- Observable outcome of a lifecycle method: whether the POST was issued,
the returned operation identifier (if any), and the log lines emitted. -/
structure CmdOutcome where
  requestSent : Bool
  operationId : Option String
  logs : List LogEvent
deriving DecidableEq

/-- `Instance.start` (lines 239-254).  `st` is the value read from the
`status` property; `nm` the cached `name` property (possibly `None`);
`resp` the provider's response to the POST, consulted only when the guard
passes. -/
def start (st : String) (nm : Option String) (instance_id : String)
    (resp : Response) : CmdOutcome :=
  if st ∉ POSITIVE_STATES then
    if resp.status_code ≠ 200 then
      { requestSent := true, operationId := Option.none,
        logs := [⟨LogLevel.error,
          toString resp.status_code ++ " Error in start_vm: " ++ resp.message⟩] }
    else
      { requestSent := true, operationId := resp.id,
        logs := [⟨LogLevel.info,
          "Starting instance " ++ pyStr nm ++ " (" ++ instance_id ++ ")"⟩] }
  else
    { requestSent := false, operationId := Option.none,
      logs := [⟨LogLevel.warning,
        "Instance " ++ pyStr nm ++ " has an invalid state for this operation."⟩] }

/-- `Instance.restart` (lines 257-272). -/
def restart (st : String) (nm : Option String) (instance_id : String)
    (resp : Response) : CmdOutcome :=
  if st ∉ NEGATIVE_STATES then
    if resp.status_code ≠ 200 then
      { requestSent := true, operationId := Option.none,
        logs := [⟨LogLevel.error,
          toString resp.status_code ++ " Error in restart_vm: " ++ resp.message⟩] }
    else
      { requestSent := true, operationId := resp.id,
        logs := [⟨LogLevel.info,
          "Restarting instance " ++ pyStr nm ++ " (" ++ instance_id ++ ")"⟩] }
  else
    { requestSent := false, operationId := Option.none,
      logs := [⟨LogLevel.warning,
        "Instance " ++ pyStr nm ++ " has an invalid state for this operation."⟩] }

/-- `Instance.stop` (lines 275-291).  The `status` property is read twice
(once by the guard on line 277, once by the `elif` on line 288) and each
read is a fresh fetch, so the two values are separate arguments; a call
during a stable status passes the same value for both. -/
def stop (st1 st2 : String) (nm : Option String) (instance_id : String)
    (resp : Response) : CmdOutcome :=
  if st1 ∉ NEGATIVE_STATES then
    if resp.status_code ≠ 200 then
      { requestSent := true, operationId := Option.none,
        logs := [⟨LogLevel.error,
          toString resp.status_code ++ " Error in stop_vm: " ++ resp.message⟩] }
    else
      { requestSent := true, operationId := resp.id,
        logs := [⟨LogLevel.info,
          "Stopping instance " ++ pyStr nm ++ " (" ++ instance_id ++ ")"⟩] }
  else if st2 = "STOPPED" then
    { requestSent := false, operationId := Option.none,
      logs := [⟨LogLevel.info, "Instance " ++ pyStr nm ++ " already stopped."⟩] }
  else
    { requestSent := false, operationId := Option.none,
      logs := [⟨LogLevel.warning,
        "Instance " ++ pyStr nm ++ " has an invalid state for this operation."⟩] }

/-! ## Supporting lemmas for the poller -/

/-- Skipping `n` polls that all report `done = false` while the counter
stays strictly below the ceiling just advances the loop state. -/
lemma poll_loop_skip (fetch : Nat → Operation) (oid : String) :
    ∀ (n fuel j t : Nat),
      (∀ i, i < n → (fetch (j + i)).done = false) →
      t + 2 * n < 600 →
      poll_loop fetch oid (n + fuel) j t = poll_loop fetch oid fuel (j + n) (t + 2 * n) := by
  intro n
  induction n with
  | zero => intro fuel j t _ _; simp
  | succ m ih =>
    intro fuel j t hfalse hlt
    rw [Nat.succ_add]
    have hj : (fetch j).done = false := by simpa using hfalse 0 (Nat.succ_pos m)
    have h600 : ¬ (t + 2 = 600) := by omega
    have h1 : ∀ i, i < m → (fetch (j + 1 + i)).done = false := by
      intro i hi
      have h2 := hfalse (i + 1) (by omega)
      have e : j + (i + 1) = j + 1 + i := by omega
      rwa [e] at h2
    have h3 := ih fuel (j + 1) (t + 2) h1 (by omega)
    simp only [poll_loop, hj, Bool.false_eq_true, if_false, if_neg h600]
    rw [h3]
    have e1 : j + 1 + m = j + (m + 1) := by omega
    have e2 : t + 2 + 2 * m = t + 2 * (m + 1) := by omega
    rw [e1, e2]

/-- Started with the elapsed counter at 0 and fuel matching the 600
ceiling, the loop always reaches a terminal outcome: the fuel of the
embedding never truncates the Python `while True` loop. -/
lemma poll_loop_total (fetch : Nat → Operation) (oid : String) :
    ∀ fuel j t, t + 2 * fuel = 600 → 0 < fuel →
      (poll_loop fetch oid fuel j t).isSome = true := by
  intro fuel
  induction fuel with
  | zero => intro j t _ h; exact absurd h (by omega)
  | succ f ih =>
    intro j t ht _
    by_cases hd : (fetch j).done = true
    · simp [poll_loop, hd]
    · by_cases h6 : t + 2 = 600
      · simp [poll_loop, hd, h6]
      · have hf : 0 < f := by omega
        have ht2 : t + 2 + 2 * f = 600 := by omega
        simpa [poll_loop, hd, h6] using ih (j + 1) (t + 2) ht2 hf

/-- C1: for a non-empty operation identifier, if the fetched operation
reports `done = false` on each of the first 299 polls and `done = true`
on poll 300, the poller returns the DONE completion message (elapsed
600); if `done = false` on all 300 polls, it returns the TIMED_OUT
message exactly when the elapsed counter equals 600 (interval 2 per
poll; the done-check precedes the ceiling check, lines 221-237). -/
theorem operation_complete_terminal_outcomes (fetch : Nat → Operation)
    (operation_id : String) (hid : operation_id ≠ "") :
    ((∀ k, k < 299 → (fetch k).done = false) → (fetch 299).done = true →
      operation_complete fetch operation_id =
        Option.some (PollResult.DONE (doneMsg (fetch 299).description operation_id), 600)) ∧
    ((∀ k, k < 300 → (fetch k).done = false) →
      operation_complete fetch operation_id =
        Option.some (PollResult.TIMED_OUT (timeoutMsg (fetch 299).description operation_id), 600)) := by
  have hskip : (∀ k, k < 299 → (fetch k).done = false) →
      poll_loop fetch operation_id 300 0 0 = poll_loop fetch operation_id 1 299 598 := by
    intro hf
    have h := poll_loop_skip fetch operation_id 299 1 0 0
      (by intro i hi; simpa using hf i hi) (by omega)
    simpa using h
  constructor
  · intro hf hdone
    unfold operation_complete
    rw [if_pos hid, hskip hf]
    simp [poll_loop, hdone]
  · intro hf
    have hf299 : ∀ k, k < 299 → (fetch k).done = false := fun k hk => hf k (by omega)
    have hdone : (fetch 299).done = false := hf 299 (by omega)
    unfold operation_complete
    rw [if_pos hid, hskip hf299]
    simp [poll_loop, hdone]

/-- A fetch trace whose operation reports done from the 300th poll on. -/
def doneAt300 (k : Nat) : Operation := ⟨decide (299 ≤ k), "create-snapshot"⟩

/-- Witness for C1: with a concrete trace that is not done for the first
299 polls and done on poll 300, the poller returns DONE at elapsed 600. -/
theorem operation_complete_terminal_outcomes_witness :
    ("op1" ≠ "") ∧
    operation_complete doneAt300 "op1" =
      Option.some (PollResult.DONE (doneMsg "create-snapshot" "op1"), 600) :=
  ⟨by decide,
   (operation_complete_terminal_outcomes doneAt300 "op1" (by decide)).1
     (by intro k hk; simp only [doneAt300, decide_eq_false_iff_not]; omega)
     (by decide)⟩

/-- The non-blocking loop computes exactly what the blocking loop
computes. -/
lemma async_poll_loop_eq_poll_loop (fetch : Nat → Operation) (oid : String) :
    ∀ fuel j t, async_poll_loop fetch oid fuel j t = poll_loop fetch oid fuel j t := by
  intro fuel
  induction fuel with
  | zero => intro j t; rfl
  | succ f ih =>
    intro j t
    by_cases hd : (fetch j).done = true
    · simp [async_poll_loop, poll_loop, hd]
    · by_cases h6 : t + 2 = 600 <;>
        simp [async_poll_loop, poll_loop, hd, h6, ih]

/-- C2: the blocking poller `operation_complete` and the non-blocking
poller `async_operation_complete` implement the identical polling
policy: for every operation identifier and every sequence of polled
operation results they produce the same answer — same terminal outcome,
same message, and the same final elapsed counter (hence the same number
of polls, one per 2 elapsed units). -/
theorem async_operation_complete_eq_operation_complete
    (fetch : Nat → Operation) (operation_id : String) :
    async_operation_complete fetch operation_id = operation_complete fetch operation_id := by
  unfold async_operation_complete operation_complete
  by_cases h : operation_id = ""
  · simp [h]
  · simp [h, async_poll_loop_eq_poll_loop]

/-! ## Snapshot retention -/

/-- C3: a snapshot is classified old by `get_old_snapshots` iff its
`age_days = floor((now - created_at) / 86400)` satisfies
`age_days >= lifetime`; in particular with `created_at = now - 10 days`
and `lifetime = 10` the snapshot is old (boundary inclusive), and with
`created_at = now - 9 days` it is not. -/
theorem get_old_snapshots_iff_age (lifetime now : Int) (l r : List Snapshot)
    (h : get_old_snapshots lifetime now (Option.some l) = Option.some r) (s : Snapshot) :
    (s ∈ r ↔ s ∈ l ∧ lifetime ≤ snapshot_age now s) ∧
    (s.createdAt = now - 864000 → is_old 10 now s = true) ∧
    (s.createdAt = now - 777600 → is_old 10 now s = false) := by
  refine ⟨?_, ?_, ?_⟩
  · simp only [get_old_snapshots] at h
    by_cases hl : l = []
    · simp [hl] at h
    · rw [if_neg hl, Option.some.injEq] at h
      rw [← h]
      simp [List.mem_filter, is_old]
  · intro hc
    unfold is_old snapshot_age
    rw [hc]
    have e : now - (now - 864000) = (864000 : Int) := by ring
    rw [e]
    decide
  · intro hc
    unfold is_old snapshot_age
    rw [hc]
    have e : now - (now - 777600) = (777600 : Int) := by ring
    rw [e]
    decide

/-- A snapshot created exactly 10 days before time 1000000. -/
def snapA : Snapshot := ⟨"s1", "n1", "d1", 136000⟩

/-- Witness for C3 at `now = 1000000`, `lifetime = 10`: the boundary
snapshot (age exactly 10 days) is returned, and both boundary
implications fire. -/
theorem get_old_snapshots_iff_age_witness :
    get_old_snapshots 10 1000000 (Option.some [snapA]) = Option.some [snapA] ∧
    ((snapA ∈ [snapA] ↔ snapA ∈ [snapA] ∧ 10 ≤ snapshot_age 1000000 snapA) ∧
     (snapA.createdAt = 1000000 - 864000 → is_old 10 1000000 snapA = true) ∧
     (snapA.createdAt = 1000000 - 777600 → is_old 10 1000000 snapA = false)) :=
  ⟨by decide,
   get_old_snapshots_iff_age 10 1000000 [snapA] [snapA] (by decide) snapA⟩

/-- C4: on a successful listing, `get_all_snapshots` returns exactly
those provider snapshots whose `sourceDiskId` equals the instance's boot
disk id; snapshots of any other disk (secondary disks, other instances)
are excluded. -/
theorem get_all_snapshots_filters_boot_disk (bd : String) (snaps r : List Snapshot)
    (h : get_all_snapshots (Option.some bd) 200 (Option.some snaps) = Option.some r)
    (s : Snapshot) :
    (s ∈ r ↔ s ∈ snaps ∧ s.sourceDiskId = bd) ∧
    (∀ t, t ∈ snaps → t.sourceDiskId ≠ bd → t ∉ r) := by
  have hr : r = snaps.filter (fun x => pyEqOpt x.sourceDiskId (Option.some bd)) := by
    unfold get_all_snapshots at h
    simp only [ne_eq, not_true_eq_false, if_false, Option.some.injEq] at h
    exact h.symm
  subst hr
  constructor
  · simp [List.mem_filter, pyEqOpt]
  · intro t ht hne
    simp only [List.mem_filter, pyEqOpt, beq_iff_eq, not_and]
    intro _
    simp [hne]

/-- A snapshot of the instance's boot disk. -/
def snapBoot : Snapshot := ⟨"s1", "a", "disk-boot", 0⟩

/-- A snapshot of one of the instance's secondary disks. -/
def snapSec : Snapshot := ⟨"s2", "b", "disk-sec", 0⟩

/-- A snapshot of another instance's disk. -/
def snapOther : Snapshot := ⟨"s3", "c", "disk-other", 0⟩

/-- Witness for C4: among a boot-disk snapshot, a secondary-disk
snapshot and a foreign snapshot, only the boot-disk one is returned. -/
theorem get_all_snapshots_filters_boot_disk_witness :
    get_all_snapshots (Option.some "disk-boot") 200
        (Option.some [snapBoot, snapSec, snapOther]) = Option.some [snapBoot] ∧
    ((snapBoot ∈ [snapBoot] ↔
        snapBoot ∈ [snapBoot, snapSec, snapOther] ∧ snapBoot.sourceDiskId = "disk-boot") ∧
     (∀ t, t ∈ [snapBoot, snapSec, snapOther] → t.sourceDiskId ≠ "disk-boot" →
        t ∉ [snapBoot])) :=
  ⟨by decide,
   get_all_snapshots_filters_boot_disk "disk-boot" [snapBoot, snapSec, snapOther]
     [snapBoot] (by decide) snapBoot⟩

/-- C5: `get_old_snapshots` returns the absent result when
`get_all_snapshots` yielded nothing, and returns the empty list (present
but empty) when `get_all_snapshots` yielded snapshots of which none
satisfies `age_days >= lifetime`. -/
theorem get_old_snapshots_absent_vs_empty (lifetime now : Int) (l : List Snapshot)
    (hne : l ≠ []) (hnone : ∀ s, s ∈ l → is_old lifetime now s = false) :
    get_old_snapshots lifetime now Option.none = Option.none ∧
    get_old_snapshots lifetime now (Option.some l) = Option.some [] := by
  refine ⟨rfl, ?_⟩
  simp only [get_old_snapshots]
  rw [if_neg hne, Option.some.injEq, List.filter_eq_nil_iff]
  intro s hs
  simp [hnone s hs]

/-- A young snapshot (age 0 days at time 0). -/
def snapYoung : Snapshot := ⟨"s4", "y", "d4", 0⟩

/-- Witness for C5: one young snapshot, lifetime 10 — absent input maps
to absent output, and the non-empty young list maps to the empty list. -/
theorem get_old_snapshots_absent_vs_empty_witness :
    (([snapYoung] : List Snapshot) ≠ []) ∧
    (∀ s, s ∈ [snapYoung] → is_old 10 0 s = false) ∧
    (get_old_snapshots 10 0 Option.none = Option.none ∧
     get_old_snapshots 10 0 (Option.some [snapYoung]) = Option.some []) :=
  ⟨by decide, by decide,
   get_old_snapshots_absent_vs_empty 10 0 [snapYoung] (by decide) (by decide)⟩

/-! ## Lifecycle guards -/

/-- C6: for every status in the POSITIVE group, `start` is a no-op: no
POST is issued, no operation identifier is returned, and exactly one
warning-level line is logged. -/
theorem start_noop_on_positive (s : String) (hs : s ∈ POSITIVE_STATES)
    (nm : Option String) (iid : String) (resp : Response) :
    start s nm iid resp =
      { requestSent := false, operationId := Option.none,
        logs := [⟨LogLevel.warning,
          "Instance " ++ pyStr nm ++ " has an invalid state for this operation."⟩] } := by
  unfold start
  rw [if_neg (not_not_intro hs)]

/-- Witness for C6 at status RUNNING: even with a provider that would
answer 200 with an operation id, nothing is sent and a warning is
logged. -/
theorem start_noop_on_positive_witness :
    ("RUNNING" ∈ POSITIVE_STATES) ∧
    start "RUNNING" (Option.some "vm1") "i1" ⟨200, Option.some "op-7", "ok"⟩ =
      { requestSent := false, operationId := Option.none,
        logs := [⟨LogLevel.warning,
          "Instance vm1 has an invalid state for this operation."⟩] } :=
  ⟨by decide,
   start_noop_on_positive "RUNNING" (by decide) (Option.some "vm1") "i1"
     ⟨200, Option.some "op-7", "ok"⟩⟩

/-- C7: for every status in the NEGATIVE group, `stop` is a no-op that
issues no request and returns no identifier; at exactly STOPPED the log
is the informational already-stopped line, for the other NEGATIVE
statuses the warning-level invalid-state line, and the two logged
reasons differ (in severity and in text). -/
theorem stop_noop_on_negative (s : String) (hs : s ∈ NEGATIVE_STATES)
    (nm : Option String) (iid : String) (resp : Response) :
    (stop s s nm iid resp).requestSent = false ∧
    (stop s s nm iid resp).operationId = Option.none ∧
    (s = "STOPPED" →
      (stop s s nm iid resp).logs =
        [⟨LogLevel.info, "Instance " ++ pyStr nm ++ " already stopped."⟩]) ∧
    (s ≠ "STOPPED" →
      (stop s s nm iid resp).logs =
        [⟨LogLevel.warning,
          "Instance " ++ pyStr nm ++ " has an invalid state for this operation."⟩]) ∧
    ((⟨LogLevel.info, "Instance " ++ pyStr nm ++ " already stopped."⟩ : LogEvent) ≠
      ⟨LogLevel.warning,
        "Instance " ++ pyStr nm ++ " has an invalid state for this operation."⟩) ∧
    ("Instance " ++ pyStr nm ++ " already stopped.") ≠
      ("Instance " ++ pyStr nm ++ " has an invalid state for this operation.") := by
  have hmsg : ("Instance " ++ pyStr nm ++ " already stopped.") ≠
      ("Instance " ++ pyStr nm ++ " has an invalid state for this operation.") := by
    intro h
    have hlen := congrArg String.length h
    simp only [String.length_append] at hlen
    have e1 : (" already stopped." : String).length = 17 := rfl
    have e2 : (" has an invalid state for this operation." : String).length = 41 := rfl
    rw [e1, e2] at hlen
    omega
  have hev : ((⟨LogLevel.info, "Instance " ++ pyStr nm ++ " already stopped."⟩ : LogEvent) ≠
      ⟨LogLevel.warning,
        "Instance " ++ pyStr nm ++ " has an invalid state for this operation."⟩) := by
    simp only [ne_eq, LogEvent.mk.injEq, not_and]
    intro hlevel
    exact absurd hlevel (by decide)
  unfold stop
  rw [if_neg (not_not_intro hs)]
  by_cases hst : s = "STOPPED"
  · simp [hst, hev, hmsg]
  · simp [hst, hev, hmsg]

/-- Witness for C7 at status STOPPED: nothing sent, no identifier, the
informational already-stopped line logged, and it differs from the
warning-level invalid-state line. -/
theorem stop_noop_on_negative_witness :
    ("STOPPED" ∈ NEGATIVE_STATES) ∧
    ((stop "STOPPED" "STOPPED" (Option.some "vm2") "i2"
        ⟨200, Option.some "op-9", "ok"⟩).requestSent = false ∧
     (stop "STOPPED" "STOPPED" (Option.some "vm2") "i2"
        ⟨200, Option.some "op-9", "ok"⟩).operationId = Option.none ∧
     ("STOPPED" = "STOPPED" →
       (stop "STOPPED" "STOPPED" (Option.some "vm2") "i2"
          ⟨200, Option.some "op-9", "ok"⟩).logs =
         [⟨LogLevel.info, "Instance vm2 already stopped."⟩]) ∧
     ("STOPPED" ≠ "STOPPED" →
       (stop "STOPPED" "STOPPED" (Option.some "vm2") "i2"
          ⟨200, Option.some "op-9", "ok"⟩).logs =
         [⟨LogLevel.warning,
           "Instance vm2 has an invalid state for this operation."⟩]) ∧
     ((⟨LogLevel.info, "Instance vm2 already stopped."⟩ : LogEvent) ≠
       ⟨LogLevel.warning, "Instance vm2 has an invalid state for this operation."⟩) ∧
     ("Instance vm2 already stopped.") ≠
       ("Instance vm2 has an invalid state for this operation.")) :=
  ⟨by decide,
   stop_noop_on_negative "STOPPED" (by decide) (Option.some "vm2") "i2"
     ⟨200, Option.some "op-9", "ok"⟩⟩

/-- C10: the sentinel NON-EXISTENT belongs to neither status group, so
`start`, `restart` and `stop` all pass their guards and issue the
lifecycle POST instead of performing a guarded no-op. -/
theorem non_existent_passes_guards (nm : Option String) (iid : String) (resp : Response) :
    "NON-EXISTENT" ∉ POSITIVE_STATES ∧
    "NON-EXISTENT" ∉ NEGATIVE_STATES ∧
    (start "NON-EXISTENT" nm iid resp).requestSent = true ∧
    (restart "NON-EXISTENT" nm iid resp).requestSent = true ∧
    (stop "NON-EXISTENT" "NON-EXISTENT" nm iid resp).requestSent = true := by
  have hp : ("NON-EXISTENT" : String) ∉ POSITIVE_STATES := by decide
  have hn : ("NON-EXISTENT" : String) ∉ NEGATIVE_STATES := by decide
  refine ⟨hp, hn, ?_, ?_, ?_⟩
  · unfold start
    rw [if_pos hp]
    by_cases h : resp.status_code = 200 <;> simp [h]
  · unfold restart
    rw [if_pos hn]
    by_cases h : resp.status_code = 200 <;> simp [h]
  · unfold stop
    rw [if_pos hn]
    by_cases h : resp.status_code = 200 <;> simp [h]

/-! ## Rendering and the live status read -/

set_option maxRecDepth 8192 in
/-- C8 counterexample: for an instance with an absent data snapshot the
rendering does NOT produce a "not found" message: it returns the joined
display string (status sentinel NON-EXISTENT, absent attributes shown as
None), emits no log line at all, and the words "not found" occur nowhere
in the returned string. -/
theorem instance_str_absent_data_no_not_found_message :
    instance_str "i1" Option.none Option.none =
      (Option.some
        "InstanceID: i1, FolderID: None, Name: None, BootDisk: None, Status: NON-EXISTENT",
       []) ∧
    ¬ List.IsInfix "not found".toList
        "InstanceID: i1, FolderID: None, Name: None, BootDisk: None, Status: NON-EXISTENT".toList := by
  exact ⟨by rfl, by decide⟩

/-- C8 (amended): for an instance whose underlying data snapshot is
absent, rendering never raises an attribute-access failure: it returns
the joined display string whose attributes read None and whose status
reads the NON-EXISTENT sentinel, with no log emitted (the descriptive
"not found" line is logged only on the exception branch of `__str__`,
which the absent-data case does not reach). -/
theorem instance_str_absent_data_renders (iid : String) (fresh : Option InstanceData) :
    instance_str iid Option.none fresh =
      (Option.some (("InstanceID: " ++ iid) ++
        ", FolderID: None, Name: None, BootDisk: None, Status: NON-EXISTENT"),
       []) := by
  show (Option.some ((("InstanceID: " ++ iid) ++ ", ") ++
      "FolderID: None, Name: None, BootDisk: None, Status: NON-EXISTENT"),
      ([] : List LogEvent)) = _
  rw [String.append_assoc]
  rfl

/-- C9: when the cached `instance_data` is present but the fresh re-fetch
performed by a later read of the `status` property returns no result, the
status read raises `AttributeError` (from `None.get('status')`) instead
of returning the NON-EXISTENT sentinel. -/
theorem status_fresh_fetch_failure_raises (d : InstanceData) :
    status (Option.some d) Option.none = Except.error PyError.attributeError ∧
    status (Option.some d) Option.none ≠ Except.ok "NON-EXISTENT" :=
  ⟨rfl, fun h => Except.noConfusion h⟩

end YandexCloudTools
